import Mathlib

/-!
Verification of the PersikTunes client library (queue, player, node pool,
REST client and websocket client) against its natural-language specification.
Python code is shallowly embedded: mutable objects become explicit state
records, exceptions become an explicit result type, and network or library
calls outside the repository are modelled by their documented behaviour.
-/

namespace PersikTunes

/-- Python exceptions that the embedded code can raise. -/
inductive PyExn where
  | queueEmpty
  | queueFull
  | queueError
  | valueError
  | indexError
  | attributeError
  | nameError
  | keyError
  | assertionError
  | nodeCreationError
  | nodeConnectionFailure
  | lavalinkVersionIncompatible
  | trackInvalidPosition
deriving DecidableEq, Repr

/-- Result of running a piece of Python code: a value or a raised exception. -/
inductive PyResult (α : Type) where
  | ok (v : α)
  | exn (e : PyExn)
deriving DecidableEq, Repr

/-- Tracks compare by their generated unique id (models.Track equality),
so a track is embedded as that id. -/
abbrev Track := Nat

/-- enums.LoopMode: an enum with string values used by the queue. -/
inductive LoopMode where
  | track
  | queue
deriving DecidableEq, Repr

/-- enums.LoopMode `.value` attribute (`TRACK = "track"`, `QUEUE = "queue"`). -/
def LoopMode.value : LoopMode → String
  | .track => r"track"
  | .queue => r"queue"

/-- queue.Queue state: `max_size`, `_current_item`, `_queue`, `_overflow`,
`_loop_mode`, `_return_exceptions`, `_primary`, `_loose_mode`. -/
structure Queue where
  maxSize : Option Nat
  current : Option Track
  queue : List Track
  overflow : Bool
  loopMode : Option LoopMode
  returnExceptions : Bool
  primary : Option Track
  looseMode : Bool
deriving DecidableEq, Repr

/-- A fresh queue with the constructor defaults
(`max_size=None, overflow=True, return_exceptions=False, loose_mode=False`);
`return_exceptions` is the one configurable argument the claims vary. -/
def Queue.init (returnExceptions : Bool) : Queue :=
  { maxSize := none, current := none, queue := [], overflow := true,
    loopMode := none, returnExceptions := returnExceptions,
    primary := none, looseMode := false }

/-- `Queue.is_empty`: `not bool(self.count)`. -/
def Queue.is_empty (q : Queue) : Bool := q.queue.length == 0

/-- `Queue.is_full`: `False if self.max_size is None else self.count >= self.max_size`. -/
def Queue.is_full (q : Queue) : Bool :=
  match q.maxSize with
  | none => false
  | some m => q.queue.length ≥ m

/-- Python `list.index(x)`: position of the first occurrence, `ValueError`
when absent. The queue holds only tracks, so indexing `None`
(an absent `_current_item`) always raises `ValueError`. -/
def pyIndex (l : List Track) (x : Option Track) : PyResult Nat :=
  match x with
  | none => .exn .valueError
  | some t => if t ∈ l then .ok (l.indexOf t) else .exn .valueError

/-- Python `list[i]` for a non-negative index: `IndexError` past the end. -/
def pyNth (l : List Track) (i : Nat) : PyResult Track :=
  match l.get? i with
  | some t => .ok t
  | none => .exn .indexError

/-- `Queue._get`: `self._queue.pop(0) if self._loop_mode else
self._queue[self._index(self._current_item) + 1]`. Returns the produced
track together with the list after the call (`pop(0)` mutates, the
subscript does not). -/
def Queue.getStep (q : Queue) : PyResult (Track × List Track) :=
  match q.loopMode with
  | some _ =>
      match q.queue with
      | [] => .exn .indexError
      | t :: rest => .ok (t, rest)
  | none =>
      match pyIndex q.queue q.current with
      | .exn e => .exn e
      | .ok i =>
          match pyNth q.queue (i + 1) with
          | .exn e => .exn e
          | .ok t => .ok (t, q.queue)

/-- `Queue.next`: on an empty queue raise `QueueEmpty` (or return `None`);
otherwise `try: self._current_item = self._get()` — on success the method
falls off the end and returns `None`; on any exception the bare `except`
evaluates `self._loop_mode.value` (an `AttributeError` when `_loop_mode`
is `None`) and returns `self._queue[0]` only in queue-loop mode. -/
def Queue.next (q : Queue) : Queue × PyResult (Option Track) :=
  if q.is_empty then
    if q.returnExceptions then (q, .exn .queueEmpty) else (q, .ok none)
  else
    match q.getStep with
    | .ok (t, rest) =>
        ({ q with current := some t, queue := rest }, .ok none)
    | .exn _ =>
        match q.loopMode with
        | none => (q, .exn .attributeError)
        | some m =>
            if m.value == r"queue" then
              match q.queue with
              | [] => (q, .exn .indexError)
              | t :: _ => ({ q with current := some t }, .ok (some t))
            else (q, .ok none)

/-- `Queue.put`: when full and overflow is off, raise `QueueFull` or no-op;
when full with overflow, `self._drop()` pops the tail before appending. -/
def Queue.put (q : Queue) (item : Track) : Queue × PyResult Unit :=
  if q.is_full then
    if !q.overflow then
      if q.returnExceptions then (q, .exn .queueFull) else (q, .ok ())
    else
      match q.queue with
      | [] => (q, .exn .indexError)
      | _ => ({ q with queue := q.queue.dropLast ++ [item] }, .ok ())
  else ({ q with queue := q.queue ++ [item] }, .ok ())

/-- `Queue.shuffle`: `random.shuffle(self._queue)` (modelled by the caller
supplying the permuted list), then `self._queue.remove(self._current_item)`
— `ValueError` when the current item is `None` or absent, with the list
already shuffled — then `self._insert(0, self._current_item)`. -/
def Queue.shuffle (q : Queue) (shuffled : List Track) : Queue × PyResult Unit :=
  match q.current with
  | none => ({ q with queue := shuffled }, .exn .valueError)
  | some t =>
      if t ∈ shuffled then
        ({ q with queue := t :: shuffled.erase t }, .ok ())
      else ({ q with queue := shuffled }, .exn .valueError)

/-- Modelled from the spec: `utils.py` (the `LavalinkVersion` container) is
not under src/. The spec describes it as a structured version with
major/minor/patch, compared lexicographically on (major, minor, patch);
the source keyword for the patch component is `fix`. -/
structure LavalinkVersion where
  major : Nat
  minor : Nat
  fix : Nat
deriving DecidableEq, Repr

/-- Modelled from the spec: lexicographic comparison on (major, minor, patch). -/
def LavalinkVersion.lt (a b : LavalinkVersion) : Bool :=
  a.major < b.major ||
    (a.major == b.major &&
      (a.minor < b.minor || (a.minor == b.minor && a.fix < b.fix)))

/-- Decimal value of a run of digit characters; the empty run stands for a
missing regex group and yields 0, matching `int(group or 0)`. -/
def digitsVal (ds : List Char) : Nat :=
  ds.foldl (fun a c => a * 10 + (c.toNat - 48)) 0

/-- One `(?:\.(\d+))?` step of pool.VERSION_REGEX: consume a dot followed by
a maximal non-empty digit run, or match empty leaving the input in place. -/
def matchDotDigits (l : List Char) : Option (List Char) × List Char :=
  match l with
  | c :: rest =>
      if c = '.' then
        let d := rest.takeWhile Char.isDigit
        if d.isEmpty then (none, l) else (some d, rest.dropWhile Char.isDigit)
      else (none, l)
  | [] => (none, [])

/-- pool.VERSION_REGEX `(\d+)(?:\.(\d+))?(?:\.(\d+))?(?:[a-zA-Z0-9_-]+)?`
applied with `.match` (anchored at the start): the three captured integer
components, or `None` when the string does not start with a digit. The
trailing optional alphanumeric run captures nothing. -/
def versionRegexMatch (s : List Char) : Option (Nat × Nat × Nat) :=
  let d1 := s.takeWhile Char.isDigit
  if d1.isEmpty then none
  else
    let r1 := s.dropWhile Char.isDigit
    let p2 := matchDotDigits r1
    let p3 := matchDotDigits p2.2
    some (digitsVal d1, digitsVal (p2.1.getD []), digitsVal (p3.1.getD []))

/-- The character suffix checked by `version.endswith("-SNAPSHOT")`. -/
def snapshotChars : List Char := ['-', 'S', 'N', 'A', 'P', 'S', 'H', 'O', 'T']

/-- Outcome of `Node._handle_version_check`: the `_version` and `_available`
attributes after the call and the exception raised, if any. -/
structure VersionCheckResult where
  version : LavalinkVersion
  available : Bool
  raised : Option PyExn
deriving DecidableEq, Repr

/-- `Node._handle_version_check(version)`: a `-SNAPSHOT` suffix short-circuits
to version 4.0.0; otherwise the anchored regex parses major/minor/fix
(raising `LavalinkVersionIncompatible` and clearing availability when the
regex fails to match); `_version` is assigned before the minimum-version
check, so it is set even when the version is rejected as below 3.7.0. -/
def handle_version_check (v0 : LavalinkVersion) (avail0 : Bool) (s : List Char) :
    VersionCheckResult :=
  if snapshotChars.isSuffixOf s then
    { version := ⟨4, 0, 0⟩, available := avail0, raised := none }
  else
    match versionRegexMatch s with
    | none =>
        { version := v0, available := false,
          raised := some .lavalinkVersionIncompatible }
    | some (ma, mi, fx) =>
        let v : LavalinkVersion := ⟨ma, mi, fx⟩
        if v.lt ⟨3, 7, 0⟩ then
          { version := v, available := false,
            raised := some .lavalinkVersionIncompatible }
        else
          { version := v, available := avail0, raised := none }

/-- NodePool.create_node, with the pool registry as an association list from
identifier to the created node (a node is represented by its identifier)
and the connect step abstracted by its outcome. The source checks
`identifier in cls._nodes.keys()` first, then constructs the `Node`,
awaits `node.connect()`, and only then runs `cls._nodes[node._identifier]
= node`; construction and connect failures propagate before that
assignment. Returns the registry after the call with the result. -/
def create_node (nodes : List (String × String)) (identifier : String)
    (connect : PyResult Unit) : List (String × String) × PyResult String :=
  if (nodes.map Prod.fst).contains identifier then
    (nodes, .exn .nodeCreationError)
  else
    match connect with
    | .exn e => (nodes, .exn e)
    | .ok _ => (nodes ++ [(identifier, identifier)], .ok identifier)

/-- Python dictionary keys as the websocket handler sees them: player maps
are keyed by the integer `guild.id`, while decoded frames carry `guildId`
as a string; two keys are the same dictionary key only when both type and
value agree. -/
inductive PyKey where
  | int (i : Int)
  | str (s : String)
deriving DecidableEq, Repr

/-- models.ws.PlayerState: the position/connected/ping/timestamp snapshot of
a `playerUpdate` frame. -/
structure WsPlayerState where
  time : Int
  position : Int
  connected : Bool
  ping : Int
deriving DecidableEq, Repr

/-- The inbound websocket frames, discriminated by their `op` field. -/
inductive WsFrame where
  | ready (resumed : Bool) (sessionId : String)
  | stats
  | event (etype : String) (guildId : String)
  | playerUpdate (guildId : String) (state : WsPlayerState)
deriving DecidableEq, Repr

/-- Observable calls a frame handler makes on the node or on a player
(players are referred to by an opaque reference). -/
inductive WsEffect where
  | configureResuming
  | storeStats
  | dispatchEvent (player : Nat)
  | updateState (player : Nat) (state : WsPlayerState)
deriving DecidableEq, Repr

/-- `Node.get_player(guild_id)`: `self._players.get(guild_id, None)` on the
int-keyed player map, looked up with whatever key the caller passes. -/
def node_get_player (players : List (Int × Nat)) (k : PyKey) : Option Nat :=
  (players.find? (fun p => PyKey.int p.1 == k)).map Prod.snd

/-- Result of one `LavalinkWebsocket._handle_ws_msg` run: the `_session_id`
attribute afterwards, the calls made, and the raised exception if any. -/
structure WsHandleResult where
  sessionId : Option String
  effects : List WsEffect
  result : PyResult Unit
deriving DecidableEq, Repr

/-- `LavalinkWebsocket._handle_ws_msg` branch by `op`. In the `playerUpdate`
branch the source validates the frame into `update`, resolves
`self.get_player(update.guildId)` (a string key against the int-keyed
map, so the lookup yields `None` and the following attribute access
raises `AttributeError`), and then runs `await
player._dispatch_event(event)` — the local name `event` is bound only in
the `event` branch, so even a resolved player would raise `NameError`
while evaluating the argument; `player._update_state` is never called. -/
def handle_ws_msg (players : List (Int × Nat)) (sessionId0 : Option String)
    (frame : WsFrame) : WsHandleResult :=
  match frame with
  | .ready _ sid => ⟨some sid, [.configureResuming], .ok ()⟩
  | .stats => ⟨sessionId0, [.storeStats], .ok ()⟩
  | .event _ g =>
      match node_get_player players (.str g) with
      | none => ⟨sessionId0, [], .exn .attributeError⟩
      | some p => ⟨sessionId0, [.dispatchEvent p], .ok ()⟩
  | .playerUpdate g _ =>
      match node_get_player players (.str g) with
      | none => ⟨sessionId0, [], .exn .attributeError⟩
      | some _ => ⟨sessionId0, [], .exn .nameError⟩

/-- State the websocket listen loop consults when it observes a
`ConnectionClosed` error: the owning node player map (guild ids in
iteration order), the fallback flag, the configured resume key, and
whether `is_connected` holds after the backoff sleep. -/
structure ListenState where
  players : List Int
  fallback : Bool
  resumeKey : Option String
  connectedAfterSleep : Bool
deriving DecidableEq, Repr

/-- The statements run by the `except ConnectionClosed` branch of
`LavalinkWebsocket._listen`, in program order. -/
inductive ListenAction where
  | taskDestroy (g : Int)
  | taskNodeSwitch
  | taskCloseWs
  | sleepBackoff
  | taskReconnect
deriving DecidableEq, Repr

/-- The `except ConnectionClosed` branch of `LavalinkWebsocket._listen`:
when `player_count > 0`, schedule `player.destroy()` for every registered
player; when `_fallback`, schedule the node switch; schedule the socket
close; compute the backoff and sleep; after the sleep, schedule a
reconnect when not connected. The configured resume key is never
consulted. -/
def listen_on_connection_closed (st : ListenState) : List ListenAction :=
  (if st.players.length > 0 then st.players.map ListenAction.taskDestroy else [])
    ++ (if st.fallback then [.taskNodeSwitch] else [])
    ++ [.taskCloseWs, .sleepBackoff]
    ++ (if !st.connectedAfterSleep then [.taskReconnect] else [])

/-- Player state relevant to destroy/disconnect/pause: the bound guild id,
the voice channel (by id), the `_is_connected` and `_paused` flags, the
owning node player map (guild ids) and node connectivity. -/
structure PlayerSt where
  guildId : Int
  channel : Option Int
  connected : Bool
  paused : Bool
  nodePlayers : List Int
  nodeConnected : Bool
deriving DecidableEq, Repr

/-- `Player.disconnect`: the try block awaits
`guild.change_voice_state(channel=None)` (external, assumed to succeed)
and then `self.node.set_player_channel(self, None)` — `Node` defines no
`set_player_channel`, so the attribute lookup raises `AttributeError`.
The finally block runs `self.cleanup()` (disnake `VoiceProtocol.cleanup`
reads `self.channel._get_voice_client_key`, raising `AttributeError` when
`self.channel` is `None` and thereby skipping the remaining finally
statements) and otherwise clears `_is_connected` and `channel` before the
pending exception propagates. -/
def Player.disconnect (st : PlayerSt) : PlayerSt × PyResult Unit :=
  match st.channel with
  | none => (st, .exn .attributeError)
  | some _ => ({ st with connected := false, channel := none }, .exn .attributeError)

/-- `Player.destroy`: `try: await self.disconnect()` with `except
AttributeError: assert self.channel is None and not self.is_connected`;
then `self._node._players.pop(self.guild.id)` — a `KeyError` when the
guild is no longer registered — and, when the node is still connected,
`await self.rest.destroy_player(...)` (external REST, assumed to
succeed). -/
def Player.destroy (st : PlayerSt) : PlayerSt × PyResult Unit :=
  let step := Player.disconnect st
  let proceed : PlayerSt → PlayerSt × PyResult Unit := fun s =>
    if s.guildId ∈ s.nodePlayers then
      ({ s with nodePlayers := s.nodePlayers.erase s.guildId }, .ok ())
    else (s, .exn .keyError)
  match step.2 with
  | .ok _ => proceed step.1
  | .exn .attributeError =>
      if step.1.channel = none ∧ step.1.connected = false then proceed step.1
      else (step.1, .exn .assertionError)
  | .exn e => (step.1, .exn e)

/-- Python truthiness of `pause or not self._paused` for
`pause : Optional[bool]`: `None` and `False` are falsy, so the expression
falls through to the negated previous flag unless `pause` is `True`. -/
def pyOrBool (p : Option Bool) (b : Bool) : Bool :=
  match p with
  | some true => true
  | _ => b

/-- `Player.set_pause(pause)`: awaits the REST update (external, assumed to
complete) and then sets `self._paused = pause or not self._paused`,
returning the new flag. -/
def Player.set_pause (st : PlayerSt) (pause : Option Bool) : PlayerSt × Bool :=
  let v := pyOrBool pause (!st.paused)
  ({ st with paused := v }, v)

/-- A registration snapshot during `Player._swap_node`: which guild ids the
old and the new node player maps hold. -/
structure SwapObs where
  oldPlayers : List Int
  newPlayers : List Int
deriving DecidableEq, Repr

/-- The registration snapshots of one `Player._swap_node(new_node=...)` run
for the player of guild `g`: the entry state, then — after the
synchronous block `del self._node._players[guild.id]; self._node =
new_node; self._node._players[guild.id] = self`, which contains no await
— the states observed at the suspension points `await
_refresh_endpoint_uri`, `await _dispatch_voice_update` and `await
rest.update_player`. The last await is reached only when a current track
exists: with no current track the name `data` is unbound and `data or {}`
raises `NameError` first, truncating the run. -/
def swap_node_trace (g : Int) (oldPlayers newPlayers : List Int)
    (hasCurrent : Bool) : List SwapObs :=
  let s1 : SwapObs := ⟨oldPlayers.erase g, g :: newPlayers⟩
  ⟨oldPlayers, newPlayers⟩ :: s1 :: s1 :: (if hasCurrent then [s1] else [])

/-- models.restapi.UpdatePlayerTrack. -/
structure UpdatePlayerTrack where
  encoded : Option String
  identifier : Option String
  userData : Option Track
deriving DecidableEq, Repr

/-- models.restapi.UpdatePlayerRequest, with pydantic `__fields_set__`
recorded so that `exclude_unset` dumps can be expressed. `filters` and
`voice` payloads are abstracted to presence. -/
structure UpdatePlayerRequest where
  method : String
  noReplase : Bool
  track : Option UpdatePlayerTrack
  position : Int
  endTime : Option Int
  volume : Option Int
  pause : Option Bool
  filters : Option Unit
  voice : Option Unit
  fieldsSet : List String
deriving DecidableEq, Repr

/-- The declared field names of UpdatePlayerRequest, in declaration order. -/
def updatePlayerFields : List String :=
  [r"method", r"noReplase", r"track", r"position", r"endTime", r"volume",
   r"pause", r"filters", r"voice"]

/-- Whether a given field of the request holds Python `None`
(`method`, `noReplase` and `position` are never `None`). -/
def UpdatePlayerRequest.fieldIsNone (r : UpdatePlayerRequest) : String → Bool
  | "track" => r.track.isNone
  | "endTime" => r.endTime.isNone
  | "volume" => r.volume.isNone
  | "pause" => r.pause.isNone
  | "filters" => r.filters.isNone
  | "voice" => r.voice.isNone
  | _ => false

/-- pydantic `model_dump`: a declared field is emitted unless it is named by
`exclude`, dropped by `exclude_unset` (not in `__fields_set__`), or
dropped by `exclude_none` (value is `None`). Names in `exclude` that
match no declared field are ignored silently. Only the emitted key set
matters to the claims, so the dump is the list of emitted field names. -/
def model_dump_keys (r : UpdatePlayerRequest) (exclude : List String)
    (excludeNone excludeUnset : Bool) : List String :=
  updatePlayerFields.filter fun n =>
    !(exclude.contains n)
      && (!excludeUnset || r.fieldsSet.contains n)
      && (!excludeNone || !(r.fieldIsNone n))

/-- The body keys `LavalinkRest.update_player` transmits:
`data.model_dump(exclude=["method", "noReplace"], exclude_none=True,
exclude_unset=True)` — note the exclude list spells `noReplace` while the
declared field is `noReplase`. The `noReplace=...` query parameter is
built separately from `data.noReplase` and carries no body field. -/
def update_player_body_keys (r : UpdatePlayerRequest) : List String :=
  model_dump_keys r [r"method", r"noReplace"] true true

/-- The request `Player.play` constructs:
`UpdatePlayerRequest(noReplase=noReplace, track=UpdatePlayerTrack(...),
position=start or 0, endTime=end or None, volume=volume or self.volume,
pause=False)` — exactly those six fields are explicitly passed and enter
`__fields_set__`. -/
def play_request (noReplace : Bool) (encoded : String) (userData : Track)
    (start : Int) (endTime : Option Int) (volume : Nat) : UpdatePlayerRequest :=
  { method := r"PATCH", noReplase := noReplace,
    track := some ⟨some encoded, none, some userData⟩,
    position := start, endTime := endTime, volume := some volume,
    pause := some false, filters := none, voice := none,
    fieldsSet := [r"noReplase", r"track", r"position", r"endTime",
                  r"volume", r"pause"] }

theorem takeWhile_append_of_head {α : Type} {p : α → Bool} :
    ∀ (l1 l2 : List α), (∀ c ∈ l1, p c = true) →
      (∀ c, l2.head? = some c → p c = false) →
      (l1 ++ l2).takeWhile p = l1 := by
  intro l1
  induction l1 with
  | nil =>
      intro l2 _ h2
      cases l2 with
      | nil => rfl
      | cons c t => simp [List.takeWhile_cons, h2 c rfl]
  | cons a t ih =>
      intro l2 h1 h2
      have ha : p a = true := h1 a (List.mem_cons_self a t)
      simp [List.takeWhile_cons, ha,
        ih l2 (fun c hc => h1 c (List.mem_cons_of_mem a hc)) h2]

theorem dropWhile_append_of_head {α : Type} {p : α → Bool} :
    ∀ (l1 l2 : List α), (∀ c ∈ l1, p c = true) →
      (∀ c, l2.head? = some c → p c = false) →
      (l1 ++ l2).dropWhile p = l2 := by
  intro l1
  induction l1 with
  | nil =>
      intro l2 _ h2
      cases l2 with
      | nil => rfl
      | cons c t => simp [List.dropWhile_cons, h2 c rfl]
  | cons a t ih =>
      intro l2 h1 h2
      have ha : p a = true := h1 a (List.mem_cons_self a t)
      simp [List.dropWhile_cons, ha,
        ih l2 (fun c hc => h1 c (List.mem_cons_of_mem a hc)) h2]

theorem isEmpty_false_of_ne_nil {α : Type} {l : List α} (h : l ≠ []) :
    l.isEmpty = false := by
  cases l with
  | nil => exact absurd rfl h
  | cons a t => rfl

/-- C1: for an inbound `playerUpdate` frame whose guild has a registered
Player, the handler does not forward the snapshot to `_update_state`; it
raises instead (the string guild id never matches the int-keyed player
map, so the `None` attribute access raises `AttributeError`; a resolved
player would still hit the unbound name `event`). This evaluates the
embedded `_handle_ws_msg` at the failing input of the code-bug report. -/
theorem c1_playerUpdate_never_reaches_update_state :
    handle_ws_msg [(1, 7)] none (.playerUpdate (r"1") ⟨10, 20, true, 3⟩)
      = ⟨none, [], .exn .attributeError⟩ := by decide

/-- C4: the body transmitted by `update_player` for the request that
`Player.play` constructs contains the `noReplase` field (the exclude
list spells `noReplace`, which matches no declared field), even though
the unset `filters`/`voice` and the `None`-valued `endTime` are
correctly omitted. This evaluates the embedded dump at the failing
input of the code-bug report. -/
theorem c4_update_player_body_contains_noReplase :
    (r"noReplase") ∈ update_player_body_keys (play_request true (r"enc") 5 0 none 100) ∧
    (r"endTime") ∉ update_player_body_keys (play_request true (r"enc") 5 0 none 100) ∧
    (r"filters") ∉ update_player_body_keys (play_request true (r"enc") 5 0 none 100) ∧
    (r"voice") ∉ update_player_body_keys (play_request true (r"enc") 5 0 none 100) ∧
    (r"method") ∉ update_player_body_keys (play_request true (r"enc") 5 0 none 100) := by
  decide

/-- C8: after `put(a); put(b); put(c)` on a fresh raising queue with loop
mode none, the first `next()` does not return `a`: it raises
`AttributeError` (the bare `except` evaluates `self._loop_mode.value`
with `_loop_mode = None`), and on the success path `next` would return
`None` rather than the produced item. This evaluates the embedded queue
at the failing input of the code-bug report. -/
theorem c8_first_next_raises_attribute_error :
    ((((Queue.init true).put 1).1.put 2).1.put 3).1.queue = [1, 2, 3] ∧
    (((((Queue.init true).put 1).1.put 2).1.put 3).1.next).2
      = .exn .attributeError := by decide

/-- C2 counterexample: with a resume key configured and one registered
player, the connection-closed branch still schedules that player
destruction — the claim that players are not destroyed when a resume
key is configured is false. -/
theorem c2_players_destroyed_despite_resume_key :
    (ListenState.mk [1] false (some (r"key")) false).resumeKey.isSome = true ∧
    ListenAction.taskDestroy 1 ∈
      listen_on_connection_closed (ListenState.mk [1] false (some (r"key")) false) := by
  decide

/-- C5 counterexample: destroying a freshly connected player succeeds, but a
second `destroy` on the resulting already-destroyed state raises
`KeyError` from `self._node._players.pop(self.guild.id)` — destroy is
not idempotent as claimed. -/
theorem c5_second_destroy_raises_key_error :
    (Player.destroy (PlayerSt.mk 1 (some 10) true false [1] true)).2 = .ok () ∧
    (Player.destroy (Player.destroy (PlayerSt.mk 1 (some 10) true false [1] true)).1).2
      = .exn .keyError := by decide

/-- C9 counterexample: a non-empty queue whose `_current_item` is still
`None` (one `put`, no `next`) makes `shuffle()` raise `ValueError` from
`self._queue.remove(self._current_item)`; `[5]` is the only permutation
`random.shuffle` can produce for a singleton list. -/
theorem c9_shuffle_raises_without_current :
    ((Queue.init false).put 5).1.queue = [5] ∧
    (Queue.shuffle ((Queue.init false).put 5).1 [5]).2 = .exn .valueError := by
  decide

/-- C7 counterexample: the raw version string `3.5.1-SNAPSHOT` has leading
characters matching `X.Y.Z` with components 3, 5, 1, yet the negotiator
parses it as 4.0.0 because the `-SNAPSHOT` check runs first — the
leading-integers clause of the claim is false on snapshot strings. -/
theorem c7_snapshot_overrides_leading_version :
    (['3'] ++ '.' :: (['5'] ++ '.' :: (['1'] ++ snapshotChars)))
        = ['3', '.', '5', '.', '1', '-', 'S', 'N', 'A', 'P', 'S', 'H', 'O', 'T'] ∧
    (handle_version_check ⟨0, 0, 0⟩ false
        ['3', '.', '5', '.', '1', '-', 'S', 'N', 'A', 'P', 'S', 'H', 'O', 'T']).version
      = ⟨4, 0, 0⟩ ∧
    (LavalinkVersion.mk 4 0 0) ≠ ⟨3, 5, 1⟩ := by decide

/-- C3: `create_node` raises `NodeCreationError` on a duplicate identifier
leaving the pool unchanged; a failing connect step leaves the pool
unchanged as well; and the node is registered under its identifier
exactly when the identifier is fresh and connect succeeds. -/
theorem c3_create_node_atomic_registration (nodes : List (String × String))
    (identifier : String) (connect : PyResult Unit) :
    ((nodes.map Prod.fst).contains identifier = true →
      create_node nodes identifier connect = (nodes, .exn .nodeCreationError)) ∧
    (∀ e, connect = .exn e → (create_node nodes identifier connect).1 = nodes) ∧
    ((nodes.map Prod.fst).contains identifier = false → connect = .ok () →
      create_node nodes identifier connect
        = (nodes ++ [(identifier, identifier)], .ok identifier)) := by
  refine ⟨fun hdup => ?_, fun e he => ?_, fun hfresh hok => ?_⟩
  · unfold create_node
    rw [if_pos hdup]
  · by_cases hdup : (nodes.map Prod.fst).contains identifier = true
    · unfold create_node
      rw [if_pos hdup]
    · unfold create_node
      rw [if_neg hdup, he]
  · have hne : ¬ (nodes.map Prod.fst).contains identifier = true := by
      rw [hfresh]
      exact Bool.false_ne_true
    unfold create_node
    rw [if_neg hne, hok]

theorem c3_create_node_atomic_registration_witness :
    create_node [((r"main"), (r"main"))] (r"backup") (.ok ())
      = ([((r"main"), (r"main")), ((r"backup"), (r"backup"))], .ok (r"backup")) :=
  (c3_create_node_atomic_registration [((r"main"), (r"main"))] (r"backup")
    (.ok ())).2.2 (by decide) rfl

/-- C2 amended: whenever the listen loop observes a connection-closed error
while the node has at least one registered player, every registered
player receives a destroy call scheduled before the backoff sleep and
before any reconnect attempt, regardless of whether a resume key is
configured. -/
theorem c2_destroy_all_before_reconnect (st : ListenState) (g : Int)
    (hg : g ∈ st.players) :
    ListenAction.taskDestroy g ∈
      (listen_on_connection_closed st).takeWhile fun a =>
        match a with
        | .sleepBackoff => false
        | .taskReconnect => false
        | _ => true := by
  have hlen : st.players.length > 0 := List.length_pos.mpr (List.ne_nil_of_mem hg)
  have hassoc : listen_on_connection_closed st
      = (st.players.map ListenAction.taskDestroy
          ++ ((if st.fallback then [.taskNodeSwitch] else []) ++ [.taskCloseWs]))
        ++ ListenAction.sleepBackoff
          :: (if !st.connectedAfterSleep then [.taskReconnect] else []) := by
    simp [listen_on_connection_closed, hlen]
  rw [hassoc, takeWhile_append_of_head]
  · exact List.mem_append_left _ (List.mem_map_of_mem ListenAction.taskDestroy hg)
  · intro c hc
    rcases List.mem_append.1 hc with hc | hc
    · rcases List.mem_map.1 hc with ⟨x, _, rfl⟩
      rfl
    · rcases List.mem_append.1 hc with hc | hc
      · cases hfb : st.fallback
        · rw [hfb] at hc
          simp at hc
        · rw [hfb] at hc
          simp at hc
          subst hc
          rfl
      · simp at hc
        subst hc
        rfl
  · intro c hc
    simp only [List.head?_cons, Option.some.injEq] at hc
    subst hc
    rfl

theorem c2_destroy_all_before_reconnect_witness :
    ListenAction.taskDestroy 1 ∈
      (listen_on_connection_closed (ListenState.mk [1, 2] true (some (r"key")) false)).takeWhile
        fun a =>
          match a with
          | .sleepBackoff => false
          | .taskReconnect => false
          | _ => true :=
  c2_destroy_all_before_reconnect (ListenState.mk [1, 2] true (some (r"key")) false) 1
    (by decide)

/-- C5 amended: `destroy` tolerates a player that is already disconnected
(channel cleared, not connected) but still registered, completing
without raising and deregistering it; on a player already removed from
the node player map, `destroy` raises `KeyError` instead of completing. -/
theorem c5_destroy_on_disconnected_player (st : PlayerSt)
    (hch : st.channel = none) (hcon : st.connected = false) :
    (st.guildId ∈ st.nodePlayers →
      Player.destroy st
        = ({ st with nodePlayers := st.nodePlayers.erase st.guildId }, .ok ())) ∧
    (st.guildId ∉ st.nodePlayers →
      Player.destroy st = (st, .exn .keyError)) := by
  constructor <;> intro h <;>
    simp [Player.destroy, Player.disconnect, hch, hcon, h]

theorem c5_destroy_on_disconnected_player_witness :
    Player.destroy (PlayerSt.mk 1 none false false [] true)
      = (PlayerSt.mk 1 none false false [] true, .exn .keyError) :=
  (c5_destroy_on_disconnected_player (PlayerSt.mk 1 none false false [] true)
    rfl rfl).2 (by decide)

/-- C6: throughout `_swap_node`, at the entry state and at every suspension
point of the run, the player is registered in exactly one of the two
node player maps — in the old map exactly until the synchronous
del/reassign/insert block, in the new map exactly afterwards. -/
theorem c6_swap_node_exactly_one_registration (g : Int)
    (oldPlayers newPlayers : List Int) (hasCurrent : Bool)
    (hnd : oldPlayers.Nodup) (hin : g ∈ oldPlayers) (hout : g ∉ newPlayers) :
    ∀ obs ∈ swap_node_trace g oldPlayers newPlayers hasCurrent,
      (g ∈ obs.oldPlayers ∧ g ∉ obs.newPlayers) ∨
        (g ∉ obs.oldPlayers ∧ g ∈ obs.newPlayers) := by
  intro obs hobs
  have hne : g ∉ oldPlayers.erase g := fun h =>
    absurd ((hnd.mem_erase_iff).1 h).1 (by simp)
  have hs1 : g ∉ (SwapObs.mk (oldPlayers.erase g) (g :: newPlayers)).oldPlayers ∧
      g ∈ (SwapObs.mk (oldPlayers.erase g) (g :: newPlayers)).newPlayers :=
    ⟨hne, List.mem_cons_self g newPlayers⟩
  simp only [swap_node_trace, List.mem_cons] at hobs
  rcases hobs with rfl | rfl | rfl | hobs
  · exact Or.inl ⟨hin, hout⟩
  · exact Or.inr hs1
  · exact Or.inr hs1
  · cases hasCurrent with
    | false => simp at hobs
    | true =>
        simp at hobs
        subst hobs
        exact Or.inr hs1

theorem c6_swap_node_exactly_one_registration_witness :
    (1 ∈ (SwapObs.mk [1] [2]).oldPlayers ∧ 1 ∉ (SwapObs.mk [1] [2]).newPlayers) ∨
      (1 ∉ (SwapObs.mk [1] [2]).oldPlayers ∧ 1 ∈ (SwapObs.mk [1] [2]).newPlayers) :=
  c6_swap_node_exactly_one_registration 1 [1] [2] true (by decide) (by decide)
    (by decide) (SwapObs.mk [1] [2]) (by decide)

/-- C9 amended: for every non-empty queue whose current item is one of its
members, `shuffle()` (for any permutation the in-place shuffle produces)
completes without raising, leaves the current item at index 0, and
leaves the members a permutation of the prior members. -/
theorem c9_shuffle_pins_current_at_front (q : Queue) (t : Track)
    (shuffled : List Track) (hcur : q.current = some t) (hmem : t ∈ q.queue)
    (hperm : shuffled.Perm q.queue) :
    (q.shuffle shuffled).2 = .ok () ∧
    (q.shuffle shuffled).1.queue.head? = some t ∧
    (q.shuffle shuffled).1.queue.Perm q.queue := by
  have ht : t ∈ shuffled := hperm.mem_iff.mpr hmem
  refine ⟨by simp [Queue.shuffle, hcur, ht], by simp [Queue.shuffle, hcur, ht], ?_⟩
  simp only [Queue.shuffle, hcur, ht, if_pos]
  exact ((List.perm_cons_erase ht).symm.trans hperm)

theorem c9_shuffle_pins_current_at_front_witness :
    (Queue.shuffle (Queue.mk none (some 2) [1, 2] true none false none false) [2, 1]).2
        = .ok () ∧
    (Queue.shuffle (Queue.mk none (some 2) [1, 2] true none false none false)
        [2, 1]).1.queue.head? = some 2 ∧
    (Queue.shuffle (Queue.mk none (some 2) [1, 2] true none false none false)
        [2, 1]).1.queue.Perm [1, 2] :=
  c9_shuffle_pins_current_at_front
    (Queue.mk none (some 2) [1, 2] true none false none false) 2 [2, 1]
    rfl (by decide) (by decide)

/-- C10: every completing `set_pause(p)` leaves the paused flag equal to the
Python value of `p or not previous`; in particular `set_pause(None)` and
`set_pause(False)` both toggle, so `set_pause(False)` on an unpaused
player pauses it. -/
theorem c10_set_pause_toggle_semantics (st : PlayerSt) (p : Option Bool) :
    (Player.set_pause st p).1.paused = pyOrBool p (!st.paused) ∧
    (Player.set_pause st p).2 = (Player.set_pause st p).1.paused ∧
    (Player.set_pause st none).1.paused = !st.paused ∧
    (Player.set_pause st (some false)).1.paused = !st.paused ∧
    (st.paused = false → (Player.set_pause st (some false)).1.paused = true) := by
  refine ⟨rfl, rfl, rfl, rfl, fun h => ?_⟩
  simp [Player.set_pause, pyOrBool, h]

theorem c10_set_pause_toggle_semantics_witness :
    (Player.set_pause (PlayerSt.mk 1 (some 10) true false [1] true)
        (some false)).1.paused = true :=
  (c10_set_pause_toggle_semantics (PlayerSt.mk 1 (some 10) true false [1] true)
    (some false)).2.2.2.2 rfl

theorem matchDotDigits_component (d rest : List Char) (hd : d ≠ [])
    (hdd : ∀ c ∈ d, c.isDigit = true)
    (hr : ∀ c, rest.head? = some c → c.isDigit = false) :
    matchDotDigits ('.' :: (d ++ rest)) = (some d, rest) := by
  simp [matchDotDigits, takeWhile_append_of_head d rest hdd hr,
    dropWhile_append_of_head d rest hdd hr, isEmpty_false_of_ne_nil hd]

theorem matchDotDigits_skip (l : List Char)
    (hhead : ∀ c, l.head? = some c → c.isDigit = false)
    (hdot : ∀ c t, l = '.' :: c :: t → c.isDigit = false) :
    matchDotDigits l = (none, l) := by
  cases l with
  | nil => rfl
  | cons a t =>
      by_cases ha : a = '.'
      · subst ha
        cases t with
        | nil => rfl
        | cons c t' =>
            have hc : c.isDigit = false := hdot c t' rfl
            simp [matchDotDigits, List.takeWhile_cons, hc]
      · have ha' : a.isDigit = false := hhead a rfl
        simp [matchDotDigits, ha]

theorem versionRegexMatch_leading (d1 rest : List Char) (h1 : d1 ≠ [])
    (h1d : ∀ c ∈ d1, c.isDigit = true)
    (hr : ∀ c, rest.head? = some c → c.isDigit = false) :
    versionRegexMatch (d1 ++ rest)
      = some (digitsVal d1, digitsVal ((matchDotDigits rest).1.getD []),
          digitsVal ((matchDotDigits (matchDotDigits rest).2).1.getD [])) := by
  simp [versionRegexMatch, takeWhile_append_of_head d1 rest h1d hr,
    dropWhile_append_of_head d1 rest h1d hr, isEmpty_false_of_ne_nil h1]

theorem handle_version_check_version_of_match (v0 : LavalinkVersion)
    (avail0 : Bool) (s : List Char) (ma mi fx : Nat)
    (hsnap : snapshotChars.isSuffixOf s = false)
    (hm : versionRegexMatch s = some (ma, mi, fx)) :
    (handle_version_check v0 avail0 s).version = ⟨ma, mi, fx⟩ := by
  simp only [handle_version_check, hsnap, Bool.false_eq_true, if_false, hm]
  split <;> rfl

theorem head_dot_not_digit (l : List Char) :
    ∀ c, ('.' :: l).head? = some c → c.isDigit = false := by
  intro c hc
  simp only [List.head?_cons, Option.some.injEq] at hc
  subst hc
  decide

/-- C7 amended: for every raw version string whose leading characters match
`X.Y.Z` (or `X.Y`, or `X`) with integer components and which does not
end in `-SNAPSHOT`, the negotiator produces a structured version whose
major/minor/patch equal those leading integers, with absent minor/patch
components defaulting to 0; and any version string ending in
`-SNAPSHOT` is parsed as major 4 (minor 0, patch 0). -/
theorem c7_version_parse_with_snapshot_override :
    (∀ (v0 : LavalinkVersion) (avail0 : Bool) (d1 d2 d3 suffix : List Char),
      d1 ≠ [] → (∀ c ∈ d1, c.isDigit = true) →
      d2 ≠ [] → (∀ c ∈ d2, c.isDigit = true) →
      d3 ≠ [] → (∀ c ∈ d3, c.isDigit = true) →
      (∀ c, suffix.head? = some c → c.isDigit = false) →
      snapshotChars.isSuffixOf (d1 ++ '.' :: (d2 ++ '.' :: (d3 ++ suffix))) = false →
      (handle_version_check v0 avail0
          (d1 ++ '.' :: (d2 ++ '.' :: (d3 ++ suffix)))).version
        = ⟨digitsVal d1, digitsVal d2, digitsVal d3⟩) ∧
    (∀ (v0 : LavalinkVersion) (avail0 : Bool) (d1 d2 suffix : List Char),
      d1 ≠ [] → (∀ c ∈ d1, c.isDigit = true) →
      d2 ≠ [] → (∀ c ∈ d2, c.isDigit = true) →
      (∀ c, suffix.head? = some c → c.isDigit = false) →
      (∀ c t, suffix = '.' :: c :: t → c.isDigit = false) →
      snapshotChars.isSuffixOf (d1 ++ '.' :: (d2 ++ suffix)) = false →
      (handle_version_check v0 avail0 (d1 ++ '.' :: (d2 ++ suffix))).version
        = ⟨digitsVal d1, digitsVal d2, 0⟩) ∧
    (∀ (v0 : LavalinkVersion) (avail0 : Bool) (d1 suffix : List Char),
      d1 ≠ [] → (∀ c ∈ d1, c.isDigit = true) →
      (∀ c, suffix.head? = some c → c.isDigit = false) →
      (∀ c t, suffix = '.' :: c :: t → c.isDigit = false) →
      snapshotChars.isSuffixOf (d1 ++ suffix) = false →
      (handle_version_check v0 avail0 (d1 ++ suffix)).version
        = ⟨digitsVal d1, 0, 0⟩) ∧
    (∀ (v0 : LavalinkVersion) (avail0 : Bool) (s : List Char),
      snapshotChars.isSuffixOf s = true →
      (handle_version_check v0 avail0 s).version = ⟨4, 0, 0⟩) := by
  refine ⟨?_, ?_, ?_, ?_⟩
  · intro v0 avail0 d1 d2 d3 suffix h1 h1d h2 h2d h3 h3d hs hsnap
    refine handle_version_check_version_of_match v0 avail0 _ _ _ _ hsnap ?_
    rw [versionRegexMatch_leading d1 _ h1 h1d (head_dot_not_digit _),
      matchDotDigits_component d2 _ h2 h2d (head_dot_not_digit _)]
    simp [matchDotDigits_component d3 suffix h3 h3d hs]
  · intro v0 avail0 d1 d2 suffix h1 h1d h2 h2d hs hdot hsnap
    refine handle_version_check_version_of_match v0 avail0 _ _ _ _ hsnap ?_
    rw [versionRegexMatch_leading d1 _ h1 h1d (head_dot_not_digit _),
      matchDotDigits_component d2 suffix h2 h2d hs]
    simp [matchDotDigits_skip suffix hs hdot]
    rfl
  · intro v0 avail0 d1 suffix h1 h1d hs hdot hsnap
    refine handle_version_check_version_of_match v0 avail0 _ _ _ _ hsnap ?_
    rw [versionRegexMatch_leading d1 suffix h1 h1d hs,
      matchDotDigits_skip suffix hs hdot]
    simp [matchDotDigits_skip suffix hs hdot]
    rfl
  · intro v0 avail0 s hsnap
    simp [handle_version_check, hsnap]

theorem c7_version_parse_with_snapshot_override_witness :
    (handle_version_check ⟨0, 0, 0⟩ false
        (['4'] ++ '.' :: (['0'] ++ '.' :: (['0'] ++ [])))).version
      = ⟨digitsVal ['4'], digitsVal ['0'], digitsVal ['0']⟩ :=
  c7_version_parse_with_snapshot_override.1 ⟨0, 0, 0⟩ false ['4'] ['0'] ['0'] []
    (by decide) (by decide) (by decide) (by decide) (by decide) (by decide)
    (fun _ hc => Option.noConfusion hc) (by decide)

end PersikTunes
